import Mathlib

/-!
Shallow embedding of the authorization and credential logic of the
TCSS460 Credentials API: the role-hierarchy tables and rank resolution in
`src/core/middleware/adminAuth.ts` and `src/controllers/adminController.ts`,
the `requireRole` middleware, the privilege decisions of
`AdminController.createUser` and `AdminController.changeUserRole`, the
`resetUserPassword` credential upsert against the SQL schema, the
`verification_codes` table constraints, and the `deleteUser` soft delete.

JavaScript-specific behaviour is modelled explicitly: a role value is either
a number or a string (`RoleLike`); object lookup on an unknown key yields
`undefined` (here `Option.none`); relational comparison against `undefined`
is `false` (NaN semantics, `jsGT`/`jsLT`); truthiness treats `0`, `""` and
`undefined` as falsy.
-/

namespace CredApi

/-- Role values arriving at a boundary: a number (JWT claim) or a string
(request body / claim). -/
inductive RoleLike where
  | num : Int → RoleLike
  | str : String → RoleLike
deriving DecidableEq

/-- ROLE_HIERARCHY object of src/core/middleware/adminAuth.ts:
User 1, Moderator 2, Admin 3, SuperAdmin 4, Owner 5; any other key is
undefined. -/
def roleHierarchyMiddleware (s : String) : Option Int :=
  if s = "User" then some 1
  else if s = "Moderator" then some 2
  else if s = "Admin" then some 3
  else if s = "SuperAdmin" then some 4
  else if s = "Owner" then some 5
  else none

/-- ROLE_HIERARCHY object of src/controllers/adminController.ts, a separate
constant with the same entries. -/
def roleHierarchyController (s : String) : Option Int :=
  if s = "User" then some 1
  else if s = "Moderator" then some 2
  else if s = "Admin" then some 3
  else if s = "SuperAdmin" then some 4
  else if s = "Owner" then some 5
  else none

/-- Rank resolution in the middleware:
`typeof r === 'number' ? r : ROLE_HIERARCHY[r]`. -/
def resolveRankMw : RoleLike → Option Int
  | .num n => some n
  | .str s => roleHierarchyMiddleware s

/-- Rank resolution in the admin controller:
`typeof r === 'number' ? r : ROLE_HIERARCHY[r]`. -/
def resolveRankCtrl : RoleLike → Option Int
  | .num n => some n
  | .str s => roleHierarchyController s

/-- JavaScript `a > b` where either side may be undefined: comparison with
undefined is false. -/
def jsGT : Option Int → Option Int → Bool
  | some a, some b => decide (b < a)
  | _, _ => false

/-- JavaScript `a < b` where either side may be undefined: comparison with
undefined is false. -/
def jsLT : Option Int → Option Int → Bool
  | some a, some b => decide (a < b)
  | _, _ => false

/-- JavaScript truthiness of a possibly-undefined number: `undefined` and `0`
are falsy. -/
def jsTruthy : Option Int → Bool
  | some n => decide (n ≠ 0)
  | none => false

/-- JavaScript truthiness of a role value: the number `0` and the empty
string are falsy. -/
def roleLikeTruthy : RoleLike → Bool
  | .num n => decide (n ≠ 0)
  | .str s => decide (s ≠ "")

/-- Truthiness of an optional body field (`undefined` when absent). -/
def bodyTruthy : Option RoleLike → Bool
  | none => false
  | some r => roleLikeTruthy r

/-- The five role names of the hierarchy (the `keyof typeof ROLE_HIERARCHY`
type of the middleware). -/
inductive RoleName where
  | User | Moderator | Admin | SuperAdmin | Owner
deriving DecidableEq

/-- Rank of a role name, as stored in both ROLE_HIERARCHY tables. -/
def RoleName.rank : RoleName → Int
  | .User => 1
  | .Moderator => 2
  | .Admin => 3
  | .SuperAdmin => 4
  | .Owner => 5

/-- String spelling of a role name, the key used in both tables. -/
def RoleName.nameString : RoleName → String
  | .User => "User"
  | .Moderator => "Moderator"
  | .Admin => "Admin"
  | .SuperAdmin => "SuperAdmin"
  | .Owner => "Owner"

/-- Outcome of the `requireRole` middleware: an error response (status and
message) or passing the request on to the handler. -/
inductive AuthOutcome where
  | err : Nat → String → AuthOutcome
  | proceed : AuthOutcome
deriving DecidableEq

/-- The `requireRole(minRole)` middleware of src/core/middleware/adminAuth.ts.
The argument `claimRole` is `req.claims.role`, `none` when the claims object
or its role field is absent. Faithful to the source: missing or falsy role
claim gives 401; then `userRank` is resolved and
`!userRank || userRank < minRank` gives 403; otherwise `next()`. -/
def requireRole (minRole : RoleName) (claimRole : Option RoleLike) : AuthOutcome :=
  match claimRole with
  | none => .err 401 "Missing authentication"
  | some userRole =>
    if !roleLikeTruthy userRole then .err 401 "Missing authentication"
    else
      let userRank := resolveRankMw userRole
      let minRank := minRole.rank
      if !jsTruthy userRank || jsLT userRank (some minRank) then
        .err 403 "Access denied: insufficient privileges"
      else .proceed

/-- Resolution of the optional `role` body field: an absent field is
`undefined`, and `ROLE_HIERARCHY[undefined]` is `undefined`. -/
def resolveBody : Option RoleLike → Option Int
  | none => none
  | some r => resolveRankCtrl r

/-- Outcome of the privilege/validation part of `AdminController.createUser`:
either the 403 denial, or the handler proceeds to the INSERT with
`Account_Role = targetRank` (possibly undefined). -/
inductive CreateOutcome where
  | denied403 : CreateOutcome
  | insertAttempt : Option Int → CreateOutcome
deriving DecidableEq

/-- Decision logic of `AdminController.createUser` (src adminController):
`creatorRank` and `targetRank` are resolved, and
`if (targetRank > creatorRank) return 403`; otherwise the INSERT runs with
the resolved target rank. There is no target-role validity check. -/
def createUserDecision (creatorRole : RoleLike) (role : Option RoleLike) : CreateOutcome :=
  let creatorRank := resolveRankCtrl creatorRole
  let targetRank := resolveBody role
  if jsGT targetRank creatorRank then .denied403
  else .insertAttempt targetRank

/-- Outcome of the validation/privilege part of
`AdminController.changeUserRole`. -/
inductive ChangeRoleOutcome where
  | roleRequired : ChangeRoleOutcome
  | invalidRole : ChangeRoleOutcome
  | denied403 : ChangeRoleOutcome
  | updateAttempt : Option Int → ChangeRoleOutcome
deriving DecidableEq

/-- Decision logic of `AdminController.changeUserRole` (src adminController):
`if (!role)` gives 400 "Role is required"; then ranks are resolved and
`if (!targetRank || targetRank < 1 || targetRank > 5)` gives 400
"Invalid role specified"; then `if (targetRank > adminRank)` gives 403;
otherwise the UPDATE runs with the resolved target rank. -/
def changeUserRoleDecision (adminRole : RoleLike) (role : Option RoleLike) : ChangeRoleOutcome :=
  if !bodyTruthy role then .roleRequired
  else
    let adminRank := resolveRankCtrl adminRole
    let targetRank := resolveBody role
    if !jsTruthy targetRank || jsLT targetRank (some 1) || jsGT targetRank (some 5) then
      .invalidRole
    else if jsGT targetRank adminRank then .denied403
    else .updateAttempt targetRank

/-- Result of executing a SQL statement: a value or a database error. -/
inductive SqlOutcome (α : Type) where
  | ok : α → SqlOutcome α
  | sqlError : String → SqlOutcome α
deriving DecidableEq

/-- Row of the Account_Credential table (SQL schema): serial primary key
Credential_ID, Account_ID (foreign key only), Salted_Hash, Salt. -/
structure CredRow where
  credentialId : Nat
  accountId : Nat
  saltedHash : String
  salt : String
deriving DecidableEq

/-- Column sets on which the Account_Credential table of the SQL schema
declares a unique or exclusion constraint: only the serial primary key
Credential_ID. Account_ID carries a foreign key, which creates no
uniqueness. -/
def accountCredentialUniqueColumnSets : List (List String) :=
  [["Credential_ID"]]

/-- PostgreSQL executes `INSERT ... ON CONFLICT (cols) DO UPDATE` only when a
unique or exclusion constraint on exactly those columns exists to act as the
arbiter; otherwise the statement fails with error 42P10. -/
def hasConflictArbiter (target : List String) : Bool :=
  accountCredentialUniqueColumnSets.any (fun k => k = target)

/-- The `INSERT INTO Account_Credential ... ON CONFLICT (Account_ID) DO
UPDATE SET Salted_Hash = $2, Salt = $3` statement of
`AdminController.resetUserPassword`, executed against the schema: without a
unique arbiter on Account_ID the statement errors; with one it would update
the existing row or insert a new one. -/
def insertOnConflictAccountId (table : List CredRow) (newRow : CredRow) :
    SqlOutcome (List CredRow) :=
  if hasConflictArbiter ["Account_ID"] then
    if table.any (fun r => r.accountId = newRow.accountId) then
      .ok (table.map (fun r =>
        if r.accountId = newRow.accountId then
          { r with saltedHash := newRow.saltedHash, salt := newRow.salt }
        else r))
    else .ok (newRow :: table)
  else
    .sqlError "there is no unique or exclusion constraint matching the ON CONFLICT specification"

/-- Outcome of `AdminController.resetUserPassword`. -/
inductive ResetOutcome where
  | passwordRequired : ResetOutcome
  | userNotFound : ResetOutcome
  | serverError : String → ResetOutcome
  | success : List CredRow → ResetOutcome
deriving DecidableEq

/-- `AdminController.resetUserPassword`: `if (!password)` gives 400; the
Account table is checked for the id (404 when absent); then the upsert
statement runs, a thrown SQL error being caught as the 500 response. The
hash and salt stand for the output of the hashing collaborator; the new
serial Credential_ID is the next value. -/
def resetUserPassword (accounts : List Nat) (creds : List CredRow) (id : Nat)
    (password : Option String) (hash salt : String) : ResetOutcome :=
  match password with
  | none => .passwordRequired
  | some p =>
    if p = "" then .passwordRequired
    else if !(accounts.any (fun a => a = id)) then .userNotFound
    else
      match insertOnConflictAccountId creds ⟨creds.length + 1, id, hash, salt⟩ with
      | .ok t => .success t
      | .sqlError m => .serverError m

/-- The two code_type values the verification_codes CHECK constraint admits. -/
def codeTypeCheck (t : String) : Bool :=
  t = "email" || t = "phone"

/-- The valid_code CHECK constraint of verification_codes:
`LENGTH(code) = 6 AND code ~ '^[0-9]+$'`. -/
def validCodeCheck (c : String) : Bool :=
  c.length = 6 && c.toList.all (fun ch => ch.isDigit)

/-- Row of the verification_codes table (SQL schema). -/
structure VCodeRow where
  codeId : Nat
  accountId : Nat
  codeType : String
  code : String
  expiresAt : Nat
  attempts : Nat
  usedAt : Option Nat
deriving DecidableEq

/-- Insertion into verification_codes under the schema constraints: the code
column is VARCHAR(6), code_type must be in ('email','phone'), and the
valid_code CHECK requires a 6-character all-digit code. -/
def insertVerificationCode (table : List VCodeRow) (r : VCodeRow) :
    SqlOutcome (List VCodeRow) :=
  if 6 < r.code.length then
    .sqlError "value too long for type character varying(6)"
  else if codeTypeCheck r.codeType && validCodeCheck r.code then .ok (r :: table)
  else .sqlError "new row for relation verification_codes violates check constraint"

/-- Verification purposes representable in the verification_codes table:
the code_type CHECK admits exactly 'email' and 'phone'. -/
inductive Purpose where
  | email | phone
deriving DecidableEq

/-- One verification record, as in the spec data model over the
verification_codes schema. -/
structure VRecord where
  accountId : Nat
  purpose : Purpose
  secret : String
  expiresAt : Nat
  attempts : Nat
  usedAt : Option Nat
deriving DecidableEq

/-- Active record: unconsumed and unexpired (expiry is strict: a record is
expired once now is past expiresAt). -/
def VRecord.isActive (now : Nat) (r : VRecord) : Bool :=
  r.usedAt = none && decide (now ≤ r.expiresAt)

/-- All active records of a given (subject, purpose) pair in a store. -/
def activeFor (store : List VRecord) (now sid : Nat) (p : Purpose) : List VRecord :=
  store.filter (fun r => r.accountId = sid && r.purpose = p && r.isActive now)

/-- Modelled from the spec: `CodeStore.issue(subjectId, purpose, secret, ttl)`
of §4.3 — the CodeStore/VerificationEngine implementation is not among the
provided source files (only the verification_codes schema and the HTTP
routes that reach it are). Per the spec it invalidates (or overwrites) any
existing record for (subjectId, purpose), then stores the new record with
expiresAt = now + ttl, attempts = 0, consumedAt = null. -/
def issue (store : List VRecord) (sid : Nat) (p : Purpose) (secret : String)
    (now ttl : Nat) : List VRecord :=
  ⟨sid, p, secret, now + ttl, 0, none⟩ ::
    store.filter (fun r => !(r.accountId = sid && r.purpose = p))

/-- Row of the Account table (SQL schema), with the columns `deleteUser`
touches or must leave alone. -/
structure Account where
  accountId : Nat
  firstName : String
  lastName : String
  email : String
  username : String
  phone : String
  accountRole : Int
  emailVerified : Bool
  phoneVerified : Bool
  accountStatus : String
  updatedAt : Nat
deriving DecidableEq

/-- The persisted state `deleteUser` can reach: the Account table and the
Account_Credential table. -/
structure AdminDb where
  accounts : List Account
  credentials : List CredRow
deriving DecidableEq

/-- Outcome of `AdminController.deleteUser`. -/
inductive DeleteOutcome where
  | notFound : DeleteOutcome
  | deleted : DeleteOutcome
deriving DecidableEq

/-- Effect of `UPDATE Account SET Account_Status = 'inactive', Updated_At =
NOW() WHERE Account_ID = $1` on one row. -/
def softDeleteRow (id now : Nat) (a : Account) : Account :=
  if a.accountId = id then { a with accountStatus := "inactive", updatedAt := now } else a

/-- `AdminController.deleteUser`: runs the UPDATE above; `rowCount === 0`
gives the 404 response, otherwise success. No other statement runs. -/
def deleteUser (db : AdminDb) (id now : Nat) : DeleteOutcome × AdminDb :=
  let updated := db.accounts.map (softDeleteRow id now)
  let rowCount := (db.accounts.filter (fun a => a.accountId = id)).length
  if rowCount = 0 then (.notFound, db)
  else (.deleted, { accounts := updated, credentials := db.credentials })

/-! ## Helper lemmas -/

lemma resolveRank_mw_eq_ctrl (r : RoleLike) : resolveRankMw r = resolveRankCtrl r := by
  cases r <;> rfl

lemma truthy_of_resolvesCtrl (r : RoleLike) (n : Int)
    (h : resolveRankCtrl r = some n) (h0 : n ≠ 0) : roleLikeTruthy r = true := by
  cases r with
  | num m =>
    simp only [resolveRankCtrl, Option.some.injEq] at h
    subst h
    simpa [roleLikeTruthy] using h0
  | str s =>
    simp only [resolveRankCtrl] at h
    simp only [roleLikeTruthy, ne_eq, decide_eq_true_eq]
    intro hs
    rw [hs] at h
    rw [show roleHierarchyController "" = none by decide] at h
    exact Option.noConfusion h

lemma truthy_of_resolvesMw (r : RoleLike) (n : Int)
    (h : resolveRankMw r = some n) (h0 : n ≠ 0) : roleLikeTruthy r = true :=
  truthy_of_resolvesCtrl r n (resolveRank_mw_eq_ctrl r ▸ h) h0

lemma roleName_rank_pos (m : RoleName) : 1 ≤ m.rank := by
  cases m <;> simp [RoleName.rank]

/-- Reduction of `requireRole` once the claim resolves to a truthy rank. -/
lemma requireRole_resolved (minRole : RoleName) (claim : RoleLike) (r : Int)
    (h : resolveRankMw claim = some r) (h0 : r ≠ 0) :
    requireRole minRole (some claim)
      = if r < minRole.rank then AuthOutcome.err 403 "Access denied: insufficient privileges"
        else AuthOutcome.proceed := by
  have htr : roleLikeTruthy claim = true := truthy_of_resolvesMw claim r h h0
  have hjt : jsTruthy (some r) = true := by simpa [jsTruthy] using h0
  simp [requireRole, htr, h, hjt, jsLT]

/-! ## Claim theorems -/

/-- C1: for every actor role and target role that both resolve to recognized
ranks (1..5), the privilege check at account creation (`createUser`) and at
role reassignment (`changeUserRole`) denies exactly when the target rank is
strictly greater than the actor rank, and lets the operation proceed exactly
when the target rank is less than or equal to the actor rank. -/
theorem c1_privilege_monotonic (actor target : RoleLike) (a t : Int)
    (ha : resolveRankCtrl actor = some a) (ht : resolveRankCtrl target = some t)
    (ha1 : 1 ≤ a) (ha5 : a ≤ 5) (ht1 : 1 ≤ t) (ht5 : t ≤ 5) :
    ((createUserDecision actor (some target) = CreateOutcome.denied403 ↔ a < t) ∧
     (createUserDecision actor (some target) = CreateOutcome.insertAttempt (some t) ↔ t ≤ a)) ∧
    ((changeUserRoleDecision actor (some target) = ChangeRoleOutcome.denied403 ↔ a < t) ∧
     (changeUserRoleDecision actor (some target) = ChangeRoleOutcome.updateAttempt (some t) ↔ t ≤ a)) := by
  have htruthy : roleLikeTruthy target = true :=
    truthy_of_resolvesCtrl target t ht (by omega)
  have hjt : jsTruthy (some t) = true := by simp [jsTruthy]; omega
  have hlow : jsLT (some t) (some 1) = false := by simp [jsLT]; omega
  have hhigh : jsGT (some t) (some 5) = false := by simp [jsGT]; omega
  have hga : jsGT (some t) (some a) = decide (a < t) := rfl
  have hcreate : createUserDecision actor (some target)
      = if a < t then CreateOutcome.denied403 else CreateOutcome.insertAttempt (some t) := by
    simp [createUserDecision, resolveBody, ha, ht, hga]
  have hchange : changeUserRoleDecision actor (some target)
      = if a < t then ChangeRoleOutcome.denied403 else ChangeRoleOutcome.updateAttempt (some t) := by
    simp [changeUserRoleDecision, bodyTruthy, htruthy, resolveBody, ha, ht, hjt, hlow, hhigh, hga]
  rw [hcreate, hchange]
  by_cases hlt : a < t <;> simp [hlt] <;> omega

/-- Witness for C1: an Admin (rank 3) creating a SuperAdmin (rank 4) is
denied, while an Admin reassigning a target to Moderator (rank 2) proceeds. -/
theorem c1_privilege_monotonic_witness :
    createUserDecision (RoleLike.str "Admin") (some (RoleLike.str "SuperAdmin"))
        = CreateOutcome.denied403 ∧
    changeUserRoleDecision (RoleLike.str "Admin") (some (RoleLike.str "Moderator"))
        = ChangeRoleOutcome.updateAttempt (some 2) :=
  ⟨((c1_privilege_monotonic (RoleLike.str "Admin") (RoleLike.str "SuperAdmin") 3 4
      (by decide) (by decide) (by decide) (by decide) (by decide) (by decide)).1.1).mpr (by decide),
   ((c1_privilege_monotonic (RoleLike.str "Admin") (RoleLike.str "Moderator") 3 2
      (by decide) (by decide) (by decide) (by decide) (by decide) (by decide)).2.2).mpr (by decide)⟩

/-- C5: for every minimum role and every actor whose role claim resolves to a
nonzero rank r, the `requireRole` gate passes the request on to the handler
exactly when r is at least the minimum rank, and otherwise rejects with the
403 access-denied failure before the handler runs. -/
theorem c5_meets_minimum (minRole : RoleName) (claim : RoleLike) (r : Int)
    (h : resolveRankMw claim = some r) (h0 : r ≠ 0) :
    (requireRole minRole (some claim) = AuthOutcome.proceed ↔ minRole.rank ≤ r) ∧
    (r < minRole.rank →
      requireRole minRole (some claim)
        = AuthOutcome.err 403 "Access denied: insufficient privileges") := by
  rw [requireRole_resolved minRole claim r h h0]
  by_cases hlt : r < minRole.rank <;> simp [hlt] <;> omega

/-- Witness for C5: a Moderator (rank 2) is rejected by the Admin gate, and
an Admin (rank 3) passes it. -/
theorem c5_meets_minimum_witness :
    requireRole RoleName.Admin (some (RoleLike.num 2))
        = AuthOutcome.err 403 "Access denied: insufficient privileges" ∧
    requireRole RoleName.Admin (some (RoleLike.str "Admin")) = AuthOutcome.proceed :=
  ⟨(c5_meets_minimum RoleName.Admin (RoleLike.num 2) 2 (by decide) (by decide)).2 (by decide),
   (c5_meets_minimum RoleName.Admin (RoleLike.str "Admin") 3 (by decide) (by decide)).1.mpr
     (by decide)⟩

/-- C7: role normalization is consistent across its two input forms and both
boundaries: for every role of the hierarchy, the numeric rank and the
symbolic name resolve to the identical integer in the middleware and in the
admin controller, and the two resolution functions agree on every input. -/
theorem c7_rank_consistent (r : RoleName) :
    resolveRankMw (RoleLike.num r.rank) = some r.rank ∧
    resolveRankMw (RoleLike.str r.nameString) = some r.rank ∧
    resolveRankCtrl (RoleLike.num r.rank) = some r.rank ∧
    resolveRankCtrl (RoleLike.str r.nameString) = some r.rank ∧
    ∀ x : RoleLike, resolveRankMw x = resolveRankCtrl x := by
  refine ⟨rfl, ?_, rfl, ?_, resolveRank_mw_eq_ctrl⟩ <;> cases r <;> rfl

/-- C9: `requireRole` does not validate numeric role claims against the 1..5
enumeration — every numeric claim at or above the minimum rank, including
ranks strictly greater than 5, passes the gate — while the numeric claim 0 is
falsy and is rejected as missing authentication (401), not as an invalid
role. -/
theorem c9_no_upper_bound_check (minRole : RoleName) (n : Int) (h : minRole.rank ≤ n) :
    requireRole minRole (some (RoleLike.num n)) = AuthOutcome.proceed ∧
    requireRole minRole (some (RoleLike.num 0))
      = AuthOutcome.err 401 "Missing authentication" := by
  have h1 : (1 : Int) ≤ minRole.rank := roleName_rank_pos minRole
  constructor
  · rw [requireRole_resolved minRole (RoleLike.num n) n rfl (by omega)]
    simp
    omega
  · rfl

/-- Witness for C9: the undefined rank 7 passes the Admin gate, and the
numeric claim 0 yields 401. -/
theorem c9_no_upper_bound_check_witness :
    requireRole RoleName.Admin (some (RoleLike.num 7)) = AuthOutcome.proceed ∧
    requireRole RoleName.Admin (some (RoleLike.num 0))
      = AuthOutcome.err 401 "Missing authentication" :=
  c9_no_upper_bound_check RoleName.Admin 7 (by decide)

lemma jsGT_none_left (x : Option Int) : jsGT none x = false := by
  cases x <;> rfl

lemma bodyTruthy_false (role : Option RoleLike) (h : ¬ bodyTruthy role = true) :
    bodyTruthy role = false := by
  revert h
  cases bodyTruthy role <;> simp

/-- Counterexample for C2: `createUser` performs no target-role validation.
With an unrecognized symbolic target role the resolved rank is undefined,
the comparison with the creator rank is false, and the handler proceeds to
the INSERT instead of denying; with an out-of-range numeric target role the
handler reports the insufficient-privilege failure. -/
theorem c2_counterexample :
    (createUserDecision (RoleLike.num 3) (some (RoleLike.str "Wizard"))
        = CreateOutcome.insertAttempt none ∧
      CreateOutcome.insertAttempt none ≠ CreateOutcome.denied403) ∧
    createUserDecision (RoleLike.num 3) (some (RoleLike.num 99))
        = CreateOutcome.denied403 := by
  decide

/-- C2 (amended): `changeUserRole` denies a missing or unrecognized target
role with the 400 invalid-input conditions (role-required or invalid-role)
before any privilege comparison; `createUser`, however, performs no
target-role validation — a target role that does not resolve passes the
privilege comparison (comparison with undefined is false) and the handler
proceeds to the INSERT with an undefined rank, and an out-of-range numeric
target role is treated as a rank: denied as a privilege failure when above
the actor, inserted otherwise. -/
theorem c2_invalid_target_amended (actor : RoleLike) (role : Option RoleLike)
    (h : ∀ n : Int, resolveBody role = some n → ¬(1 ≤ n ∧ n ≤ 5)) :
    (changeUserRoleDecision actor role = ChangeRoleOutcome.roleRequired ∨
     changeUserRoleDecision actor role = ChangeRoleOutcome.invalidRole) ∧
    (resolveBody role = none →
      createUserDecision actor role = CreateOutcome.insertAttempt none) ∧
    (∀ (n a : Int), resolveBody role = some n → resolveRankCtrl actor = some a →
      createUserDecision actor role
        = if a < n then CreateOutcome.denied403 else CreateOutcome.insertAttempt (some n)) := by
  refine ⟨?_, ?_, ?_⟩
  · by_cases hb : bodyTruthy role = true
    · right
      rcases hr : resolveBody role with _ | n
      · simp [changeUserRoleDecision, hb, hr, jsTruthy]
      · have hn := h n hr
        have hcond : (!jsTruthy (some n) || jsLT (some n) (some 1)
            || jsGT (some n) (some 5)) = true := by
          simp [jsTruthy, jsLT, jsGT]
          omega
        simp [changeUserRoleDecision, hb, hr, hcond]
    · left
      simp [changeUserRoleDecision, bodyTruthy_false role hb]
  · intro hr
    simp [createUserDecision, hr, jsGT_none_left]
  · intro n a hr hactor
    have hga : jsGT (some n) (some a) = decide (a < n) := rfl
    simp [createUserDecision, hr, hactor, hga]

/-- Witness for C2 (amended): the unrecognized target role "Wizard" is
denied as invalid input by `changeUserRole` but proceeds to the INSERT in
`createUser`. -/
theorem c2_invalid_target_amended_witness :
    changeUserRoleDecision (RoleLike.num 3) (some (RoleLike.str "Wizard"))
        = ChangeRoleOutcome.invalidRole ∧
    createUserDecision (RoleLike.num 3) (some (RoleLike.str "Wizard"))
        = CreateOutcome.insertAttempt none := by
  have h := c2_invalid_target_amended (RoleLike.num 3) (some (RoleLike.str "Wizard"))
    (by
      intro n hn
      rw [show resolveBody (some (RoleLike.str "Wizard")) = none by decide] at hn
      exact Option.noConfusion hn)
  refine ⟨?_, h.2.1 (by decide)⟩
  rcases h.1 with h1 | h1
  · exact absurd h1 (by decide)
  · exact h1

/-- Counterexample for C6: an unrecognized actor role and a
recognized-but-too-low actor rank produce the identical 403
insufficient-privilege outcome at the `requireRole` gate — the two cases are
collapsed, contrary to the claim that no two of the three failure kinds share
an outcome. -/
theorem c6_counterexample :
    requireRole RoleName.Admin (some (RoleLike.str "Wizard"))
        = AuthOutcome.err 403 "Access denied: insufficient privileges" ∧
    requireRole RoleName.Admin (some (RoleLike.str "User"))
        = AuthOutcome.err 403 "Access denied: insufficient privileges" := by
  decide

/-- C6 (amended): a missing or absent (falsy) actor role claim produces the
401 unauthenticated failure, which is distinguishable from the denials; an
unrecognized actor role is denied fail-closed and a recognized-but-too-low
rank is denied, but both produce the identical 403 insufficient-privilege
failure — the invalid-role case is not surfaced as a distinct condition. -/
theorem c6_failure_taxonomy_amended (minRole : RoleName) :
    requireRole minRole none = AuthOutcome.err 401 "Missing authentication" ∧
    (∀ s : String, s ≠ "" → roleHierarchyMiddleware s = none →
      requireRole minRole (some (RoleLike.str s))
        = AuthOutcome.err 403 "Access denied: insufficient privileges") ∧
    (∀ (claim : RoleLike) (r : Int), resolveRankMw claim = some r → r ≠ 0 →
      r < minRole.rank →
      requireRole minRole (some claim)
        = AuthOutcome.err 403 "Access denied: insufficient privileges") ∧
    AuthOutcome.err 401 "Missing authentication"
      ≠ AuthOutcome.err 403 "Access denied: insufficient privileges" := by
  refine ⟨rfl, ?_, ?_, by decide⟩
  · intro s hs htab
    have htr : roleLikeTruthy (RoleLike.str s) = true := by
      simpa [roleLikeTruthy] using hs
    simp [requireRole, htr, resolveRankMw, htab, jsTruthy]
  · intro claim r h h0 hlt
    rw [requireRole_resolved minRole claim r h h0]
    simp [hlt]

/-- Witness for C6 (amended): at the Admin gate, a missing claim gives 401
and the unrecognized role "Wizard" gives the 403 denial. -/
theorem c6_failure_taxonomy_amended_witness :
    requireRole RoleName.Admin none = AuthOutcome.err 401 "Missing authentication" ∧
    requireRole RoleName.Admin (some (RoleLike.str "Wizard"))
      = AuthOutcome.err 403 "Access denied: insufficient privileges" :=
  ⟨(c6_failure_taxonomy_amended RoleName.Admin).1,
   (c6_failure_taxonomy_amended RoleName.Admin).2.1 "Wizard" (by decide) (by decide)⟩

/-- C3 (code bug): the `resetUserPassword` handler issues
`INSERT ... ON CONFLICT (Account_ID) DO UPDATE`, but the Account_Credential
table of the schema declares no unique or exclusion constraint on
Account_ID, so PostgreSQL rejects the statement for every existing subject
and every password — the handler returns the caught 500 error instead of
performing the claimed atomic upsert that leaves exactly one credential
row. -/
theorem c3_reset_upsert_errors (accounts : List Nat) (creds : List CredRow)
    (id : Nat) (p hash salt : String)
    (hp : p ≠ "") (hid : accounts.any (fun a => a = id) = true) :
    resetUserPassword accounts creds id (some p) hash salt
      = ResetOutcome.serverError
          "there is no unique or exclusion constraint matching the ON CONFLICT specification" := by
  simp [resetUserPassword, hp, hid, insertOnConflictAccountId, hasConflictArbiter,
    accountCredentialUniqueColumnSets]

/-- Witness for C3: the concrete failing input — resetting the password of
existing account 1 yields the SQL error, not a credential replacement. -/
theorem c3_reset_upsert_errors_witness :
    resetUserPassword [1] [] 1 (some "NewPass123!") "newHash" "newSalt"
      = ResetOutcome.serverError
          "there is no unique or exclusion constraint matching the ON CONFLICT specification" :=
  c3_reset_upsert_errors [1] [] 1 "NewPass123!" "newHash" "newSalt" (by decide) (by decide)

/-- Counterexample for C8: the verification_codes table cannot store a
password-reset record — a third code_type value violates the code_type
CHECK, and an opaque high-entropy token violates the VARCHAR(6) length and
the 6-digit valid_code CHECK; even a 6-character opaque token under an
admitted code_type is rejected. -/
theorem c8_counterexample :
    insertVerificationCode [] ⟨1, 7, "reset", "Zk8fQ2mN7pL4xW9aB3cD", 100, 0, none⟩
        = SqlOutcome.sqlError "value too long for type character varying(6)" ∧
    insertVerificationCode [] ⟨1, 7, "email", "Zk8fQ2", 100, 0, none⟩
        = SqlOutcome.sqlError
            "new row for relation verification_codes violates check constraint" := by
  decide

/-- C8 (amended): the verification-record store holds exactly the two
purposes email and phone, and every secret it accepts is a 6-character
all-digit code — an opaque high-entropy password-reset token is not
representable in the verification_codes table. -/
theorem c8_two_purposes_amended (table : List VCodeRow) (r : VCodeRow)
    (t : List VCodeRow) (h : insertVerificationCode table r = SqlOutcome.ok t) :
    (r.codeType = "email" ∨ r.codeType = "phone") ∧
    r.code.length = 6 ∧ r.code.toList.all (fun ch => ch.isDigit) = true := by
  by_cases h6 : 6 < r.code.length
  · simp [insertVerificationCode, h6] at h
  · by_cases hc : (codeTypeCheck r.codeType && validCodeCheck r.code) = true
    · have hc2 := hc
      simp only [codeTypeCheck, validCodeCheck, Bool.and_eq_true, Bool.or_eq_true,
        decide_eq_true_eq] at hc2
      exact ⟨hc2.1, hc2.2.1, hc2.2.2⟩
    · rw [insertVerificationCode, if_neg h6] at h
      rw [if_neg hc] at h
      exact SqlOutcome.noConfusion h

/-- Witness for C8 (amended): the accepted row with code "123456" has an
admitted code_type. -/
theorem c8_two_purposes_amended_witness :
    (VCodeRow.mk 1 7 "email" "123456" 100 0 none).codeType = "email" ∨
    (VCodeRow.mk 1 7 "email" "123456" 100 0 none).codeType = "phone" :=
  (c8_two_purposes_amended [] ⟨1, 7, "email", "123456", 100, 0, none⟩
    [⟨1, 7, "email", "123456", 100, 0, none⟩] (by decide)).1

lemma filter_filter_nil {α : Type} (p q : α → Bool) (l : List α)
    (h : ∀ a, q a = true → p a = false) : (l.filter p).filter q = [] := by
  induction l with
  | nil => rfl
  | cons a l ih =>
    by_cases hp : p a = true
    · rw [List.filter_cons_of_pos hp]
      by_cases hq : q a = true
      · rw [h a hq] at hp
        exact Bool.noConfusion hp
      · rw [List.filter_cons_of_neg hq]
        exact ih
    · rw [List.filter_cons_of_neg hp]
      exact ih

lemma filter_filter_of_imp {α : Type} (p q : α → Bool) (l : List α)
    (h : ∀ a, q a = true → p a = true) : (l.filter p).filter q = l.filter q := by
  induction l with
  | nil => rfl
  | cons a l ih =>
    by_cases hq : q a = true
    · rw [List.filter_cons_of_pos (h a hq), List.filter_cons_of_pos hq,
        List.filter_cons_of_pos hq, ih]
    · by_cases hp : p a = true
      · rw [List.filter_cons_of_pos hp, List.filter_cons_of_neg hq,
          List.filter_cons_of_neg hq, ih]
      · rw [List.filter_cons_of_neg hp, List.filter_cons_of_neg hq, ih]

/-- After issuing a code for (sid, p), the active records of that pair are
exactly the freshly issued record. -/
lemma activeFor_issue_same (store : List VRecord) (sid now ttl : Nat)
    (p : Purpose) (secret : String) :
    activeFor (issue store sid p secret now ttl) now sid p
      = [⟨sid, p, secret, now + ttl, 0, none⟩] := by
  unfold activeFor issue
  rw [List.filter_cons_of_pos (by simp [VRecord.isActive])]
  rw [filter_filter_nil _ _ store ?imp]
  case imp =>
    intro r hq
    simp only [Bool.and_eq_true, decide_eq_true_eq] at hq
    simp [hq.1.1, hq.1.2]

/-- Issuing a code for (sid, p) leaves the active records of every other
(subject, purpose) pair unchanged. -/
lemma activeFor_issue_other (store : List VRecord) (sid now ttl sid2 : Nat)
    (p p2 : Purpose) (secret : String) (h : ¬(sid2 = sid ∧ p2 = p)) :
    activeFor (issue store sid p secret now ttl) now sid2 p2
      = activeFor store now sid2 p2 := by
  unfold activeFor issue
  rw [List.filter_cons_of_neg ?hnew]
  case hnew =>
    simp only [Bool.and_eq_true, decide_eq_true_eq, not_and, Bool.not_eq_true]
    intro h1
    exact absurd ⟨h1.1.symm, h1.2.symm⟩ h
  exact filter_filter_of_imp _ _ store (by
    intro r hq
    simp only [Bool.and_eq_true, decide_eq_true_eq] at hq
    by_cases hs : r.accountId = sid
    · have hp2 : ¬ r.purpose = p := fun hpp =>
        h ⟨by rw [← hq.1.1, hs], by rw [← hq.1.2, hpp]⟩
      simp [hp2]
    · simp [hs])

/-- C4: issuing a new verification code for a (subject, purpose) pair leaves
that pair with exactly the fresh record as its only active record — so at
most one active record per pair — while the active records of every other
(subject, purpose) pair, in particular an active PhoneVerify record of the
same subject when an EmailVerify code is issued, are untouched. -/
theorem c4_one_active_per_pair (store : List VRecord) (sid now ttl : Nat)
    (p : Purpose) (secret : String) :
    (activeFor (issue store sid p secret now ttl) now sid p).length ≤ 1 ∧
    (∀ (sid2 : Nat) (p2 : Purpose), ¬(sid2 = sid ∧ p2 = p) →
      activeFor (issue store sid p secret now ttl) now sid2 p2
        = activeFor store now sid2 p2) := by
  constructor
  · rw [activeFor_issue_same]
    simp
  · intro sid2 p2 h
    exact activeFor_issue_other store sid now ttl sid2 p p2 secret h

/-- Witness for C4: issuing an email code for subject 42 leaves the
subject's active phone record untouched and the email pair with at most one
active record. -/
theorem c4_one_active_per_pair_witness :
    activeFor (issue [⟨42, Purpose.phone, "111111", 100, 0, none⟩] 42 Purpose.email
        "222222" 10 5) 10 42 Purpose.phone
      = activeFor [⟨42, Purpose.phone, "111111", 100, 0, none⟩] 10 42 Purpose.phone ∧
    (activeFor (issue [⟨42, Purpose.phone, "111111", 100, 0, none⟩] 42 Purpose.email
        "222222" 10 5) 10 42 Purpose.email).length ≤ 1 :=
  ⟨(c4_one_active_per_pair [⟨42, Purpose.phone, "111111", 100, 0, none⟩] 42 10 5
      Purpose.email "222222").2 42 Purpose.phone (by decide),
   (c4_one_active_per_pair [⟨42, Purpose.phone, "111111", 100, 0, none⟩] 42 10 5
      Purpose.email "222222").1⟩

lemma forall2_map_self {α : Type} (P : α → α → Prop) (f : α → α) (l : List α)
    (h : ∀ a ∈ l, P a (f a)) : List.Forall₂ P l (l.map f) := by
  induction l with
  | nil => exact List.Forall₂.nil
  | cons a l ih =>
    exact List.Forall₂.cons (h a (List.mem_cons_self a l))
      (ih fun b hb => h b (List.mem_cons_of_mem a hb))

lemma forall2_self {α : Type} (P : α → α → Prop) (l : List α)
    (h : ∀ a ∈ l, P a a) : List.Forall₂ P l l := by
  induction l with
  | nil => exact List.Forall₂.nil
  | cons a l ih =>
    exact List.Forall₂.cons (h a (List.mem_cons_self a l))
      (ih fun b hb => h b (List.mem_cons_of_mem a hb))

/-- C10: `deleteUser` is a soft delete — the credential table is untouched,
no account row is removed (the length is preserved), a nonexistent id yields
the not-found outcome and leaves the state unchanged, and row by row: name,
email, username, phone, role and the verified flags are unchanged, the
matching row gets status "inactive" and the new Updated_At, and every
non-matching row is entirely unchanged. -/
theorem c10_soft_delete (db : AdminDb) (id now : Nat) :
    (deleteUser db id now).2.credentials = db.credentials ∧
    (deleteUser db id now).2.accounts.length = db.accounts.length ∧
    ((deleteUser db id now).1 = DeleteOutcome.notFound ↔
      ∀ a ∈ db.accounts, a.accountId ≠ id) ∧
    ((deleteUser db id now).1 = DeleteOutcome.notFound →
      (deleteUser db id now).2 = db) ∧
    List.Forall₂ (fun a b =>
        b.accountId = a.accountId ∧ b.firstName = a.firstName ∧
        b.lastName = a.lastName ∧ b.email = a.email ∧ b.username = a.username ∧
        b.phone = a.phone ∧ b.accountRole = a.accountRole ∧
        b.emailVerified = a.emailVerified ∧ b.phoneVerified = a.phoneVerified ∧
        (a.accountId = id → b.accountStatus = "inactive" ∧ b.updatedAt = now) ∧
        (a.accountId ≠ id → b = a))
      db.accounts (deleteUser db id now).2.accounts := by
  have hmem : ∀ a ∈ db.accounts, a.accountId = id →
      (db.accounts.filter (fun a => a.accountId = id)).length ≠ 0 := by
    intro a ha haid hlen
    rw [List.length_eq_zero, List.filter_eq_nil_iff] at hlen
    exact hlen a ha (by simp [haid])
  by_cases hc : (db.accounts.filter (fun a => a.accountId = id)).length = 0
  · have hnone : ∀ a ∈ db.accounts, a.accountId ≠ id := by
      intro a ha haid
      exact hmem a ha haid hc
    have hdu : deleteUser db id now = (DeleteOutcome.notFound, db) := by
      simp [deleteUser, hc]
    rw [hdu]
    refine ⟨rfl, rfl, by simpa using hnone, fun _ => rfl, ?_⟩
    exact forall2_self _ _ (by
      intro a ha
      refine ⟨rfl, rfl, rfl, rfl, rfl, rfl, rfl, rfl, rfl, ?_, fun _ => rfl⟩
      intro haid
      exact absurd haid (hnone a ha))
  · have hdu : deleteUser db id now
        = (DeleteOutcome.deleted,
           ⟨db.accounts.map (softDeleteRow id now), db.credentials⟩) := by
      simp [deleteUser, hc]
    rw [hdu]
    refine ⟨rfl, List.length_map _ _, ?_, ?_, ?_⟩
    · simp only [reduceCtorEq, false_iff, not_forall]
      have : ∃ a ∈ db.accounts, a.accountId = id := by
        by_contra hno
        push_neg at hno
        exact hc (by
          rw [List.length_eq_zero, List.filter_eq_nil_iff]
          intro a ha
          simp [hno a ha])
      rcases this with ⟨a, ha, haid⟩
      exact ⟨a, ha, fun hne => hne haid⟩
    · intro hcon
      exact absurd hcon (by simp)
    · exact forall2_map_self _ _ _ (by
        intro a ha
        by_cases haid : a.accountId = id
        · refine ⟨?_, ?_, ?_, ?_, ?_, ?_, ?_, ?_, ?_, ?_, ?_⟩ <;>
            simp [softDeleteRow, haid]
        · refine ⟨?_, ?_, ?_, ?_, ?_, ?_, ?_, ?_, ?_, ?_, ?_⟩ <;>
            simp [softDeleteRow, haid])

/-- Witness for C10: deleting the nonexistent id 1 from a state holding only
account 2 reports not-found and leaves the state unchanged. -/
theorem c10_soft_delete_witness :
    (deleteUser
        ⟨[⟨2, "Ada", "L", "ada@x", "ada", "1234567890", 1, false, false, "active", 0⟩], []⟩
        1 5).1 = DeleteOutcome.notFound ∧
    (deleteUser
        ⟨[⟨2, "Ada", "L", "ada@x", "ada", "1234567890", 1, false, false, "active", 0⟩], []⟩
        1 5).2
      = ⟨[⟨2, "Ada", "L", "ada@x", "ada", "1234567890", 1, false, false, "active", 0⟩], []⟩ :=
  ⟨(c10_soft_delete
      ⟨[⟨2, "Ada", "L", "ada@x", "ada", "1234567890", 1, false, false, "active", 0⟩], []⟩
      1 5).2.2.1.mpr (by decide),
   (c10_soft_delete
      ⟨[⟨2, "Ada", "L", "ada@x", "ada", "1234567890", 1, false, false, "active", 0⟩], []⟩
      1 5).2.2.2.1
     ((c10_soft_delete
        ⟨[⟨2, "Ada", "L", "ada@x", "ada", "1234567890", 1, false, false, "active", 0⟩], []⟩
        1 5).2.2.1.mpr (by decide))⟩

end CredApi
